import Mathlib

set_option maxHeartbeats 1000000

/- Verification of the solution router of the llmops-workflow service.
   The definitions below shallowly embed `src/app/routers/solution.py`:
   the retrieval-augmented generation endpoint `generate_text` and the
   CRUD endpoint `create_solution`.  External collaborators (the database
   services, the retrieval gateway, the loaded-model registry and the
   generation pipeline) are parameters collected in an `Env` record; the
   orchestration logic itself is translated from the source. -/

/-- One `{role, content}` dictionary of the `messages` list (lines 38-41). -/
structure Message where
  role : String
  content : String
deriving DecidableEq, Repr

/-- The search type referenced by a knowledge source (`solution_knowledge.search_type`, line 75). -/
structure SearchType where
  id : Nat
deriving DecidableEq, Repr

/-- A knowledge source bound to a solution: the search configuration used to
build the retrieval request (lines 74-77). The relevance threshold is a
numeric score, embedded as a rational. -/
structure Knowledge where
  id : Nat
  search_type : SearchType
  top_k : Nat
  score : Rat
deriving DecidableEq, Repr

/-- The solution configuration row (`solution_obj.solution_config`, line 64);
fetched by the endpoint but unused downstream. -/
structure SolutionConfigObj where
  id : Nat
  solution_id : Nat
  model_id : Nat
deriving DecidableEq, Repr

/-- The solution aggregate as loaded by `SolutionService().get` (line 63). -/
structure SolutionObj where
  id : Nat
  solution_config : SolutionConfigObj
  knowledge : Knowledge
deriving DecidableEq, Repr

/-- A prompt row; `content` is the template string (line 66). -/
structure Prompt where
  content : String
deriving DecidableEq, Repr

/-- The `RetrievalRequestSchema` value built at lines 72-80 of the router. -/
structure RetrievalRequestSchema where
  query : String
  knowledge_id : Nat
  search_type_id : Nat
  top_k : Nat
  threshold_score : Rat
  dense_weight : Rat
  sparse_weight : Rat
deriving DecidableEq, Repr

/-- One retrieval result item returned by `EvaluationService.retrieve`:
carries at least a `text` field and a relevance score. -/
structure RetrievalItem where
  text : String
  score : Rat
deriving DecidableEq, Repr

/-- A loaded model/tokenizer pair stored in `settings.LOADED_LLM` (lines 90-94). -/
structure LoadedPipeline where
  model : String
  tokenizer : String
deriving DecidableEq, Repr

/-- Failure outcomes of the endpoint.  `notFound` is a failing database
lookup; `indexError`, `keyError` and `valueError` are uncaught Python
exceptions (`messages[-1]` on an empty list, `str.format` resolving an
unknown keyword or positional argument, malformed format string);
`httpError` is an explicitly raised `HTTPException` with its status code
and detail (line 92).  Two constructors are markers rather than behaviour
of the code: `invalidInput` is the specification's error-taxonomy entry,
which the code never raises (it exists only so that statements about it
can be made); `fieldMachinery` marks a replacement field whose argument
resolves but which then uses CPython's conversion, format-spec or
attribute/index machinery — that machinery lies outside the modelled
fragment (CPython may succeed or raise various exceptions there), so the
model never treats such a field as a success and never attributes a
specific Python exception to it. -/
inductive GenError where
  | notFound : GenError
  | indexError : GenError
  | keyError : String → GenError
  | valueError : GenError
  | httpError : Nat → String → GenError
  | invalidInput : GenError
  | fieldMachinery : String → GenError
deriving DecidableEq, Repr

/-- Argument resolution for `prompt.format(context=context, question=question)`
(line 86).  CPython resolves a replacement field's argument before applying
any conversion, format spec or attribute/index access: the names `context`
and `question` resolve to the keyword arguments; an all-digit (or empty)
argument name is a positional reference and raises IndexError, since no
positional arguments are passed; any other name raises KeyError naming the
argument. -/
def lookupField (c q : String) (name : List Char) : Except GenError (List Char) :=
  if name = "context".toList then Except.ok c.toList
  else if name = "question".toList then Except.ok q.toList
  else if name.all Char.isDigit then Except.error GenError.indexError
  else Except.error (GenError.keyError (String.mk name))

/-- Scanner state for `str.format`: plain text, just after an opening brace,
just after a closing brace, inside a replacement field's argument name, or
skipping over a field's conversion/format-spec/attribute/index part (the
carried list is the already-read argument name). -/
inductive FmtMode where
  | text : FmtMode
  | brace : FmtMode
  | closeBrace : FmtMode
  | fieldName : List Char → FmtMode
  | skipMachinery : List Char → FmtMode
deriving DecidableEq, Repr

/-- One-character-at-a-time embedding of CPython `str.format` with the
keyword arguments `context` and `question`.  A doubled brace is a literal
brace; a lone closing brace or an unterminated field raises ValueError, as
CPython does.  A replacement field's argument name ends at the closing
brace or at the first of the characters that start CPython's field
machinery (attribute access, index access, conversion, format spec); as in
CPython, the argument is resolved first — so an unknown argument raises
KeyError and a positional one IndexError even when machinery follows — and
a field whose argument resolves but which uses the machinery is outside
the modelled fragment and yields the `fieldMachinery` marker instead of a
rendering. -/
def fmtGo (c q : String) : FmtMode → List Char → Except GenError (List Char)
  | FmtMode.text, [] => Except.ok []
  | FmtMode.text, ch :: rest =>
      if ch = '{' then fmtGo c q FmtMode.brace rest
      else if ch = '}' then fmtGo c q FmtMode.closeBrace rest
      else
        match fmtGo c q FmtMode.text rest with
        | Except.error e => Except.error e
        | Except.ok s => Except.ok (ch :: s)
  | FmtMode.brace, [] => Except.error GenError.valueError
  | FmtMode.brace, ch :: rest =>
      if ch = '{' then
        match fmtGo c q FmtMode.text rest with
        | Except.error e => Except.error e
        | Except.ok s => Except.ok ('{' :: s)
      else if ch = '}' then
        match lookupField c q [] with
        | Except.error e => Except.error e
        | Except.ok repl =>
          match fmtGo c q FmtMode.text rest with
          | Except.error e => Except.error e
          | Except.ok s => Except.ok (repl ++ s)
      else if ch = '.' ∨ ch = '[' ∨ ch = '!' ∨ ch = ':' then
        fmtGo c q (FmtMode.skipMachinery []) rest
      else fmtGo c q (FmtMode.fieldName [ch]) rest
  | FmtMode.closeBrace, [] => Except.error GenError.valueError
  | FmtMode.closeBrace, ch :: rest =>
      if ch = '}' then
        match fmtGo c q FmtMode.text rest with
        | Except.error e => Except.error e
        | Except.ok s => Except.ok ('}' :: s)
      else Except.error GenError.valueError
  | FmtMode.fieldName _, [] => Except.error GenError.valueError
  | FmtMode.fieldName name, ch :: rest =>
      if ch = '}' then
        match lookupField c q name with
        | Except.error e => Except.error e
        | Except.ok repl =>
          match fmtGo c q FmtMode.text rest with
          | Except.error e => Except.error e
          | Except.ok s => Except.ok (repl ++ s)
      else if ch = '{' then Except.error GenError.valueError
      else if ch = '.' ∨ ch = '[' ∨ ch = '!' ∨ ch = ':' then
        fmtGo c q (FmtMode.skipMachinery name) rest
      else fmtGo c q (FmtMode.fieldName (name ++ [ch])) rest
  | FmtMode.skipMachinery name, _ =>
      match lookupField c q name with
      | Except.error e => Except.error e
      | Except.ok _ => Except.error (GenError.fieldMachinery (String.mk name))

/-- Embedding of line 86: `content = prompt.format(context=context, question=question)`. -/
def pyFormat (template c q : String) : Except GenError String :=
  match fmtGo c q FmtMode.text template.toList with
  | Except.error e => Except.error e
  | Except.ok s => Except.ok (String.mk s)

/-- The replacement fields a template references, in scan order, each as its
argument name paired with a flag that is true when the field is plain (no
conversion, format spec or attribute/index part); `none` when the template
is malformed for this scanner (lone brace, unterminated field, or a nested
brace inside a field).  This mirrors the scanning of `fmtGo` but only
collects the fields. -/
def fieldsGo : FmtMode → List Char → Option (List (String × Bool))
  | FmtMode.text, [] => some []
  | FmtMode.text, ch :: rest =>
      if ch = '{' then fieldsGo FmtMode.brace rest
      else if ch = '}' then fieldsGo FmtMode.closeBrace rest
      else fieldsGo FmtMode.text rest
  | FmtMode.brace, [] => none
  | FmtMode.brace, ch :: rest =>
      if ch = '{' then fieldsGo FmtMode.text rest
      else if ch = '}' then
        (fieldsGo FmtMode.text rest).map (fun fs => (String.mk [], true) :: fs)
      else if ch = '.' ∨ ch = '[' ∨ ch = '!' ∨ ch = ':' then
        fieldsGo (FmtMode.skipMachinery []) rest
      else fieldsGo (FmtMode.fieldName [ch]) rest
  | FmtMode.closeBrace, [] => none
  | FmtMode.closeBrace, ch :: rest =>
      if ch = '}' then fieldsGo FmtMode.text rest else none
  | FmtMode.fieldName _, [] => none
  | FmtMode.fieldName name, ch :: rest =>
      if ch = '}' then (fieldsGo FmtMode.text rest).map (fun fs => (String.mk name, true) :: fs)
      else if ch = '{' then none
      else if ch = '.' ∨ ch = '[' ∨ ch = '!' ∨ ch = ':' then
        fieldsGo (FmtMode.skipMachinery name) rest
      else fieldsGo (FmtMode.fieldName (name ++ [ch])) rest
  | FmtMode.skipMachinery _, [] => none
  | FmtMode.skipMachinery name, ch :: rest =>
      if ch = '}' then (fieldsGo FmtMode.text rest).map (fun fs => (String.mk name, false) :: fs)
      else if ch = '{' then none
      else fieldsGo (FmtMode.skipMachinery name) rest

/-- The argument names a template's replacement fields reference. -/
def templateFields (template : String) : Option (List String) :=
  (fieldsGo FmtMode.text template.toList).map (List.map Prod.fst)

/-- True when the template scans successfully and every replacement field
is plain (no conversion, format spec or attribute/index part) — on such
templates the modelled fragment is all of `str.format`. -/
def templatePlain (template : String) : Bool :=
  match fieldsGo FmtMode.text template.toList with
  | some fs => fs.all (fun p => p.2)
  | none => false

/-- The collaborators consumed by the router, as observed through their
interfaces.  `SolutionService().get`, `PromptService().get`,
`EvaluationService.retrieve` and the `settings.LOADED_LLM` registry live
outside `src/`; they are modelled from the spec's collaborator interfaces
(§6): lookups return the stored aggregate or fail, the gateway returns an
ordered list of items for a request, and the pipeline maps a rendered
message sequence to a generated reply. -/
structure Env where
  solutions : Nat → Option SolutionObj
  prompts : Nat → Option Prompt
  retrieve : RetrievalRequestSchema → List RetrievalItem
  LOADED_LLM : Nat → Option LoadedPipeline
  generate : LoadedPipeline → List Message → Message

/-- The response dictionary of a successful generation (lines 102-105). -/
structure GenResponse where
  message : Message
  context : String
deriving DecidableEq, Repr

deriving instance DecidableEq for Except

/-- Everything observable about one call of the endpoint: the returned value
or raised error, the state of the caller's `messages` list after the call
(line 87 mutates it in place), and the retrieval and generation calls that
were actually performed. -/
structure GenOutcome where
  result : Except GenError GenResponse
  messages : List Message
  retrievalCalls : List RetrievalRequestSchema
  generationCalls : List (List Message)
deriving DecidableEq, Repr

/-- The retrieval request built at lines 72-80: query is the question, the
knowledge source supplies its id, search type, top_k and threshold score,
and the weights are the fixed constants 0.6 and 0.4. -/
def retrievalRequestOf (solution_knowledge : Knowledge) (question : String) : RetrievalRequestSchema :=
  { query := question
  , knowledge_id := solution_knowledge.id
  , search_type_id := solution_knowledge.search_type.id
  , top_k := solution_knowledge.top_k
  , threshold_score := solution_knowledge.score
  , dense_weight := 0.6
  , sparse_weight := 0.4 }

/-- Embedding of the endpoint `generate_text` (lines 33-105): resolve the
solution and the prompt, take the last message's content as the question,
call the retrieval gateway, join the returned texts with newlines, render
the template, overwrite the last message's content in place, look up the
model in `LOADED_LLM` (raising HTTP 400 when absent), and run the pipeline.
Failing database lookups surface as `notFound` (the services are outside
`src/`; their failure mode is modelled from the spec's failure semantics). -/
def generate_text (env : Env) (solution_id prompt_id model_id : Nat)
    (messages : List Message) : GenOutcome :=
  match env.solutions solution_id with
  | none =>
    { result := Except.error GenError.notFound
    , messages := messages, retrievalCalls := [], generationCalls := [] }
  | some solution_obj =>
    match env.prompts prompt_id with
    | none =>
      { result := Except.error GenError.notFound
      , messages := messages, retrievalCalls := [], generationCalls := [] }
    | some promptRow =>
      match messages.getLast? with
      | none =>
        { result := Except.error GenError.indexError
        , messages := messages, retrievalCalls := [], generationCalls := [] }
      | some lastMsg =>
        let question := lastMsg.content
        let req := retrievalRequestOf solution_obj.knowledge question
        let contexts := env.retrieve req
        let context := String.intercalate "\n" (contexts.map RetrievalItem.text)
        match pyFormat promptRow.content context question with
        | Except.error e =>
          { result := Except.error e
          , messages := messages, retrievalCalls := [req], generationCalls := [] }
        | Except.ok content =>
          let messages2 := messages.dropLast ++ [{ lastMsg with content := content }]
          match env.LOADED_LLM model_id with
          | none =>
            { result := Except.error (GenError.httpError 400 "Model을 먼저 Load 하세요.")
            , messages := messages2, retrievalCalls := [req], generationCalls := [] }
          | some loaded_pipeline =>
            { result := Except.ok
                { message := env.generate loaded_pipeline messages2, context := context }
            , messages := messages2, retrievalCalls := [req], generationCalls := [messages2] }

/-- The default value of the `messages` parameter (lines 38-41).  Python
evaluates this literal once, at function-definition time, and every call
that omits `messages` receives the very same list object. -/
def default_messages : List Message :=
  [ { role := "assistant", content := "You are ahelpful assistant" }
  , { role := "user", content := "Where is the capital of Korea?" } ]

/-- Two successive calls of the endpoint that both omit `messages`: by
CPython default-argument semantics, the second call receives the shared
default list in the state the first call left it (line 87 mutates it in
place).  The sharing is embedded by threading the returned messages state
of the first call into the second. -/
def generate_text_twice_defaulted (env : Env) (solution_id prompt_id model_id : Nat) :
    GenOutcome × GenOutcome :=
  let o1 := generate_text env solution_id prompt_id model_id default_messages
  let o2 := generate_text env solution_id prompt_id model_id o1.messages
  (o1, o2)

/-- A concrete knowledge source: top_k 2, threshold 0.5, matching the spec's
end-to-end example. -/
def knowledgeEx : Knowledge :=
  { id := 1, search_type := { id := 1 }, top_k := 2, score := 0.5 }

/-- A concrete solution aggregate bound to `knowledgeEx`. -/
def solutionEx : SolutionObj :=
  { id := 1
  , solution_config := { id := 1, solution_id := 1, model_id := 6 }
  , knowledge := knowledgeEx }

/-- The concrete prompt of the spec's end-to-end example. -/
def promptEx : Prompt := { content := "Context: {context}\nQ: {question}" }

/-- A concrete environment realising the spec's end-to-end example: solution
1 bound to `knowledgeEx`, prompt 1 the example template, a gateway that
returns the two example chunks for the example query and nothing otherwise,
and model 6 loaded. -/
def envEx : Env :=
  { solutions := fun n => if n = 1 then some solutionEx else none
  , prompts := fun n => if n = 1 then some promptEx else none
  , retrieve := fun req =>
      if req.query = "Where is the capital of Korea?" then
        [ { text := "Seoul is the capital.", score := 0.9 }
        , { text := "Korea is in Asia.", score := 0.8 } ]
      else []
  , LOADED_LLM := fun n => if n = 6 then some { model := "m", tokenizer := "t" } else none
  , generate := fun _ _ => { role := "assistant", content := "Seoul" } }

/-- Modelled from the spec: the Solution row fields submitted on create —
name/description fields plus references to a knowledge source and a prompt
(§3); `schemas/solution.py` is not under src/. -/
structure SolutionFields where
  name : String
  description : String
  knowledge_id : Nat
  prompt_id : Nat
deriving DecidableEq, Repr

/-- Modelled from the spec: the tunable generation parameters of a
SolutionConfig (model identifier, etc., §3). -/
structure SolutionConfigFields where
  model_id : Nat
deriving DecidableEq, Repr

/-- A persisted Solution row: identifier plus submitted fields. -/
structure SolutionRow where
  id : Nat
  fields : SolutionFields
deriving DecidableEq, Repr

/-- A persisted SolutionConfig row: identifier, owning solution identifier,
and submitted fields. -/
structure SolutionConfigRow where
  id : Nat
  solution_id : Nat
  fields : SolutionConfigFields
deriving DecidableEq, Repr

/-- A database state: the rows of the two tables. -/
structure Store where
  solutions : List SolutionRow
  configs : List SolutionConfigRow
deriving DecidableEq, Repr

/-- Modelled from the spec: a database session.  `committed` is the durable
state, `session` the state visible inside the open transaction (its own
uncommitted inserts included), plus the counters the services use to assign
fresh row identifiers.  The services and session live outside src/. -/
structure DBState where
  committed : Store
  session : Store
  nextSolutionId : Nat
  nextConfigId : Nat
deriving DecidableEq, Repr

/-- Modelled from the spec: `SolutionService().create` inserts a fresh
Solution row into the open transaction and returns it. -/
def solutionServiceCreate (db : DBState) (f : SolutionFields) : SolutionRow × DBState :=
  let row : SolutionRow := { id := db.nextSolutionId, fields := f }
  (row,
    { db with
        session := { db.session with solutions := db.session.solutions ++ [row] }
        nextSolutionId := db.nextSolutionId + 1 })

/-- Modelled from the spec: `SolutionConfigService().create` inserts a fresh
SolutionConfig row referencing the given solution id into the open
transaction. -/
def solutionConfigServiceCreate (db : DBState) (solution_id : Nat)
    (f : SolutionConfigFields) : SolutionConfigRow × DBState :=
  let row : SolutionConfigRow := { id := db.nextConfigId, solution_id := solution_id, fields := f }
  (row,
    { db with
        session := { db.session with configs := db.session.configs ++ [row] }
        nextConfigId := db.nextConfigId + 1 })

/-- The joined read-model returned by the endpoints: the Solution row with
its SolutionConfig populated. -/
structure SolutionReadSchema where
  solution : SolutionRow
  solution_config : Option SolutionConfigRow
deriving DecidableEq, Repr

/-- Modelled from the spec: `SolutionService().get` loads the Solution row
by id, joined with its SolutionConfig, from the state the transaction
sees. -/
def solutionServiceGet (db : DBState) (solution_id : Nat) : Option SolutionReadSchema :=
  (db.session.solutions.find? (fun s => s.id == solution_id)).map
    (fun s =>
      { solution := s
      , solution_config := db.session.configs.find? (fun cfg => cfg.solution_id == solution_id) })

/-- Modelled from the spec: `db.commit()` publishes the open transaction as
the new durable state. -/
def dbCommit (db : DBState) : DBState := { db with committed := db.session }

/-- The request body of the create endpoint: solution fields plus solution
config fields. -/
structure SolutionCreateSchema where
  solution : SolutionFields
  solution_config : SolutionConfigFields
deriving DecidableEq, Repr

/-- Embedding of the endpoint `create_solution` (lines 108-126): insert the
Solution, insert a SolutionConfig referencing the fresh solution id, re-read
the joined read-model, then commit — all inside one transaction. -/
def create_solution (db : DBState) (request : SolutionCreateSchema) :
    Option SolutionReadSchema × DBState :=
  let p1 := solutionServiceCreate db request.solution
  let solution_id := p1.1.id
  let p2 := solutionConfigServiceCreate p1.2 solution_id request.solution_config
  let result := solutionServiceGet p2.2 solution_id
  let db3 := dbCommit p2.2
  (result, db3)

/-- C7: in the spec's end-to-end example — solution 1 bound to knowledge
with top_k 2 and score 0.5, a gateway returning the two example chunks for
the query "Where is the capital of Korea?", and prompt template
"Context: {context}\nQ: {question}" — the rendered content of the final
turn is exactly the expected string. -/
theorem generate_text_end_to_end_example :
    (generate_text envEx 1 1 6 default_messages).messages.getLast? =
      some { role := "user"
           , content := "Context: Seoul is the capital.\nKorea is in Asia.\nQ: Where is the capital of Korea?" } := by
  rfl

/-- C5: the retrieval request passed to the gateway has query equal to the
last message's content, knowledge id, search type id, top_k and threshold
score taken from the resolved solution's knowledge configuration, and the
fixed weights dense 0.6 and sparse 0.4. -/
theorem generate_text_retrieval_request_fields
    (env : Env) (sid pid mid : Nat) (messages : List Message)
    (sol : SolutionObj) (pr : Prompt) (lastMsg : Message)
    (hs : env.solutions sid = some sol)
    (hp : env.prompts pid = some pr)
    (hl : messages.getLast? = some lastMsg) :
    (generate_text env sid pid mid messages).retrievalCalls =
      [ { query := lastMsg.content
        , knowledge_id := sol.knowledge.id
        , search_type_id := sol.knowledge.search_type.id
        , top_k := sol.knowledge.top_k
        , threshold_score := sol.knowledge.score
        , dense_weight := 0.6
        , sparse_weight := 0.4 } ] := by
  simp only [generate_text, hs, hp, hl]
  split
  · rfl
  · split <;> rfl

/-- C5 witness: the theorem applied at the concrete example environment. -/
theorem generate_text_retrieval_request_fields_witness :
    (generate_text envEx 1 1 6 default_messages).retrievalCalls =
      [ { query := ({ role := "user", content := "Where is the capital of Korea?" } : Message).content
        , knowledge_id := solutionEx.knowledge.id
        , search_type_id := solutionEx.knowledge.search_type.id
        , top_k := solutionEx.knowledge.top_k
        , threshold_score := solutionEx.knowledge.score
        , dense_weight := 0.6
        , sparse_weight := 0.4 } ] :=
  generate_text_retrieval_request_fields envEx 1 1 6 default_messages solutionEx promptEx
    { role := "user", content := "Where is the capital of Korea?" } rfl rfl rfl

/-- C1: with valid solution, prompt and model identifiers, a non-empty
messages list and a template that renders, the endpoint returns a response
whose context is exactly the newline-join of the gateway's returned texts
in gateway order; when the gateway returns no items the context is the
empty string and a generation call is still performed. -/
theorem generate_text_context_is_join
    (env : Env) (sid pid mid : Nat) (messages : List Message)
    (sol : SolutionObj) (pr : Prompt) (pl : LoadedPipeline) (lastMsg : Message) (rendered : String)
    (hs : env.solutions sid = some sol)
    (hp : env.prompts pid = some pr)
    (hl : messages.getLast? = some lastMsg)
    (hm : env.LOADED_LLM mid = some pl)
    (hr : pyFormat pr.content
        (String.intercalate "\n"
          (List.map RetrievalItem.text (env.retrieve (retrievalRequestOf sol.knowledge lastMsg.content))))
        lastMsg.content = Except.ok rendered) :
    ∃ g, (generate_text env sid pid mid messages).result = Except.ok g ∧
      g.context = String.intercalate "\n"
        (List.map RetrievalItem.text (env.retrieve (retrievalRequestOf sol.knowledge lastMsg.content))) ∧
      (env.retrieve (retrievalRequestOf sol.knowledge lastMsg.content) = [] → g.context = "") ∧
      (generate_text env sid pid mid messages).generationCalls ≠ [] := by
  simp only [generate_text, hs, hp, hl, hm, hr]
  refine ⟨_, rfl, rfl, ?_, by simp⟩
  intro hnone
  rw [hnone]
  rfl

/-- C1 witness: the theorem applied at the concrete example environment. -/
theorem generate_text_context_is_join_witness :
    ∃ g, (generate_text envEx 1 1 6 default_messages).result = Except.ok g ∧
      g.context = String.intercalate "\n"
        (List.map RetrievalItem.text (envEx.retrieve (retrievalRequestOf solutionEx.knowledge
          ({ role := "user", content := "Where is the capital of Korea?" } : Message).content))) ∧
      (envEx.retrieve (retrievalRequestOf solutionEx.knowledge
          ({ role := "user", content := "Where is the capital of Korea?" } : Message).content) = [] →
        g.context = "") ∧
      (generate_text envEx 1 1 6 default_messages).generationCalls ≠ [] :=
  generate_text_context_is_join envEx 1 1 6 default_messages solutionEx promptEx
    { model := "m", tokenizer := "t" }
    { role := "user", content := "Where is the capital of Korea?" }
    "Context: Seoul is the capital.\nKorea is in Asia.\nQ: Where is the capital of Korea?"
    rfl rfl rfl rfl rfl

/-- C2: when the model id has no entry in the loaded-model registry (and
the rest of the request is valid), the endpoint fails with the HTTP 400
"load the model first" error and performs no generation call. -/
theorem generate_text_model_absent_no_generation
    (env : Env) (sid pid mid : Nat) (messages : List Message)
    (sol : SolutionObj) (pr : Prompt) (lastMsg : Message) (rendered : String)
    (hs : env.solutions sid = some sol)
    (hp : env.prompts pid = some pr)
    (hl : messages.getLast? = some lastMsg)
    (hr : pyFormat pr.content
        (String.intercalate "\n"
          (List.map RetrievalItem.text (env.retrieve (retrievalRequestOf sol.knowledge lastMsg.content))))
        lastMsg.content = Except.ok rendered)
    (hm : env.LOADED_LLM mid = none) :
    (generate_text env sid pid mid messages).result =
      Except.error (GenError.httpError 400 "Model을 먼저 Load 하세요.") ∧
    (generate_text env sid pid mid messages).generationCalls = [] := by
  simp only [generate_text, hs, hp, hl, hm, hr]
  exact ⟨trivial, trivial⟩

/-- C2 witness: the theorem applied at the example environment with an
unloaded model id. -/
theorem generate_text_model_absent_no_generation_witness :
    (generate_text envEx 1 1 99 default_messages).result =
      Except.error (GenError.httpError 400 "Model을 먼저 Load 하세요.") ∧
    (generate_text envEx 1 1 99 default_messages).generationCalls = [] :=
  generate_text_model_absent_no_generation envEx 1 1 99 default_messages solutionEx promptEx
    { role := "user", content := "Where is the capital of Korea?" }
    "Context: Seoul is the capital.\nKorea is in Asia.\nQ: Where is the capital of Korea?"
    rfl rfl rfl rfl rfl

/-- C9: when the model id is absent from the registry, the HTTP 400 error
is raised only after the retrieval call has executed and the last message's
content has been overwritten with the rendered prompt: the outcome records
the performed retrieval call and the mutated messages list even though the
request fails. -/
theorem generate_text_model_absent_after_retrieval_and_mutation
    (env : Env) (sid pid mid : Nat) (messages : List Message)
    (sol : SolutionObj) (pr : Prompt) (lastMsg : Message) (rendered : String)
    (hs : env.solutions sid = some sol)
    (hp : env.prompts pid = some pr)
    (hl : messages.getLast? = some lastMsg)
    (hr : pyFormat pr.content
        (String.intercalate "\n"
          (List.map RetrievalItem.text (env.retrieve (retrievalRequestOf sol.knowledge lastMsg.content))))
        lastMsg.content = Except.ok rendered)
    (hm : env.LOADED_LLM mid = none) :
    (generate_text env sid pid mid messages).result =
      Except.error (GenError.httpError 400 "Model을 먼저 Load 하세요.") ∧
    (generate_text env sid pid mid messages).retrievalCalls =
      [retrievalRequestOf sol.knowledge lastMsg.content] ∧
    (generate_text env sid pid mid messages).messages =
      messages.dropLast ++ [{ lastMsg with content := rendered }] := by
  simp only [generate_text, hs, hp, hl, hm, hr]
  exact ⟨trivial, trivial, trivial⟩

/-- C9 witness: the theorem applied at the example environment with an
unloaded model id; the default messages list ends up mutated. -/
theorem generate_text_model_absent_after_retrieval_and_mutation_witness :
    (generate_text envEx 1 1 99 default_messages).result =
      Except.error (GenError.httpError 400 "Model을 먼저 Load 하세요.") ∧
    (generate_text envEx 1 1 99 default_messages).retrievalCalls =
      [retrievalRequestOf solutionEx.knowledge
        ({ role := "user", content := "Where is the capital of Korea?" } : Message).content] ∧
    (generate_text envEx 1 1 99 default_messages).messages =
      default_messages.dropLast ++
        [{ ({ role := "user", content := "Where is the capital of Korea?" } : Message) with
            content := "Context: Seoul is the capital.\nKorea is in Asia.\nQ: Where is the capital of Korea?" }] :=
  generate_text_model_absent_after_retrieval_and_mutation envEx 1 1 99 default_messages
    solutionEx promptEx
    { role := "user", content := "Where is the capital of Korea?" }
    "Context: Seoul is the capital.\nKorea is in Asia.\nQ: Where is the capital of Korea?"
    rfl rfl rfl rfl rfl

/-- C4: after rendering, the last message's content is replaced in place by
the rendered string (its role preserved), and every earlier message of the
list is unchanged. -/
theorem generate_text_replaces_last_message_only
    (env : Env) (sid pid mid : Nat) (messages : List Message)
    (sol : SolutionObj) (pr : Prompt) (lastMsg : Message) (rendered : String)
    (hs : env.solutions sid = some sol)
    (hp : env.prompts pid = some pr)
    (hl : messages.getLast? = some lastMsg)
    (hr : pyFormat pr.content
        (String.intercalate "\n"
          (List.map RetrievalItem.text (env.retrieve (retrievalRequestOf sol.knowledge lastMsg.content))))
        lastMsg.content = Except.ok rendered) :
    (generate_text env sid pid mid messages).messages =
      messages.dropLast ++ [{ role := lastMsg.role, content := rendered }] ∧
    ∀ i, i < messages.length - 1 →
      ((generate_text env sid pid mid messages).messages)[i]? = messages[i]? := by
  have hmain : (generate_text env sid pid mid messages).messages =
      messages.dropLast ++ [{ role := lastMsg.role, content := rendered }] := by
    simp only [generate_text, hs, hp, hl, hr]
    split <;> rfl
  refine ⟨hmain, ?_⟩
  intro i hi
  rw [hmain]
  rw [List.getElem?_append_left (by simpa [List.dropLast_eq_take] using hi)]
  rw [List.dropLast_eq_take, List.getElem?_take_of_lt hi]

/-- C4 witness: the theorem applied at the example environment; the earlier
assistant instruction message survives unchanged. -/
theorem generate_text_replaces_last_message_only_witness :
    (generate_text envEx 1 1 6 default_messages).messages =
      default_messages.dropLast ++
        [{ role := ({ role := "user", content := "Where is the capital of Korea?" } : Message).role
         , content := "Context: Seoul is the capital.\nKorea is in Asia.\nQ: Where is the capital of Korea?" }] ∧
    ∀ i, i < default_messages.length - 1 →
      ((generate_text envEx 1 1 6 default_messages).messages)[i]? = default_messages[i]? :=
  generate_text_replaces_last_message_only envEx 1 1 6 default_messages solutionEx promptEx
    { role := "user", content := "Where is the capital of Korea?" }
    "Context: Seoul is the capital.\nKorea is in Asia.\nQ: Where is the capital of Korea?"
    rfl rfl rfl rfl

/-- C3 counterexample: on an empty messages list (with valid solution and
prompt identifiers) the endpoint raises an uncaught IndexError, which is
not the specification's InvalidInput error, refuting the claim that the
failure is an InvalidInput one. -/
theorem generate_text_empty_messages_not_invalidInput :
    (generate_text envEx 1 1 6 []).result = Except.error GenError.indexError ∧
    GenError.indexError ≠ GenError.invalidInput := by
  exact ⟨rfl, by decide⟩

/-- C3 (amended): on an empty messages list (with valid solution and prompt
identifiers) the endpoint fails with an uncaught IndexError — not with the
spec's InvalidInput client error — before any retrieval or generation call
is attempted, and the messages list is left untouched. -/
theorem generate_text_empty_messages_indexError
    (env : Env) (sid pid mid : Nat) (sol : SolutionObj) (pr : Prompt)
    (hs : env.solutions sid = some sol)
    (hp : env.prompts pid = some pr) :
    (generate_text env sid pid mid []).result = Except.error GenError.indexError ∧
    (generate_text env sid pid mid []).retrievalCalls = [] ∧
    (generate_text env sid pid mid []).generationCalls = [] ∧
    (generate_text env sid pid mid []).messages = [] := by
  simp only [generate_text, hs, hp, List.getLast?_nil]
  exact ⟨trivial, trivial, trivial, trivial⟩

/-- Argument resolution never succeeds for a name outside the two keyword
arguments: the error is a KeyError or IndexError, never the spec's
InvalidInput. -/
lemma lookupField_error_not_invalid (c q : String) (name : List Char) (e : GenError)
    (h : lookupField c q name = Except.error e) :
    e ≠ GenError.invalidInput ∧ ((∃ s, e = GenError.keyError s) ∨ e = GenError.indexError) := by
  unfold lookupField at h
  split_ifs at h with h1 h2 h3
  · injection h with h'
    subst h'
    exact ⟨by simp, Or.inr rfl⟩
  · injection h with h'
    subst h'
    exact ⟨by simp, Or.inl ⟨_, rfl⟩⟩

/-- A field suffix scanned in machinery-skipping state always contributes
its (non-plain) argument name to the collected fields. -/
lemma fieldsGo_skip_mem (name : List Char) :
    ∀ (l : List Char) (fs : List (String × Bool)),
      fieldsGo (FmtMode.skipMachinery name) l = some fs → (String.mk name, false) ∈ fs := by
  intro l
  induction l with
  | nil => intro fs h; simp [fieldsGo] at h
  | cons ch rest ih =>
    intro fs h
    simp only [fieldsGo] at h
    split_ifs at h with h1
    · rcases Option.map_eq_some'.mp h with ⟨fs', _, rfl⟩
      exact List.mem_cons_self _ _
    · exact ih fs h

/-- Scanner invariant: on a suffix the scanner accepts, either rendering
raises some error — never the spec's InvalidInput, and precisely a KeyError
or IndexError when all collected fields are plain — or every collected
field's argument name is one of the two supplied keyword names. -/
lemma fieldsGo_some_fmtGo (c q : String) :
    ∀ (l : List Char) (m : FmtMode) (fs : List (String × Bool)),
      fieldsGo m l = some fs →
      (∃ e, fmtGo c q m l = Except.error e ∧ e ≠ GenError.invalidInput ∧
        ((∀ p ∈ fs, p.2 = true) →
          (∃ s, e = GenError.keyError s) ∨ e = GenError.indexError)) ∨
        (∀ p ∈ fs, p.1 = "context" ∨ p.1 = "question") := by
  intro l
  induction l with
  | nil =>
    intro m fs h
    cases m with
    | text =>
      simp only [fieldsGo, Option.some.injEq] at h
      subst h
      right
      simp
    | brace => simp [fieldsGo] at h
    | closeBrace => simp [fieldsGo] at h
    | fieldName name => simp [fieldsGo] at h
    | skipMachinery name => simp [fieldsGo] at h
  | cons ch rest ih =>
    intro m fs h
    cases m with
    | text =>
      simp only [fieldsGo] at h
      simp only [fmtGo]
      split_ifs at h ⊢ with h1 h2
      · exact ih FmtMode.brace fs h
      · exact ih FmtMode.closeBrace fs h
      · rcases ih FmtMode.text fs h with ⟨e, he, hni, hpl⟩ | hall
        · exact Or.inl ⟨e, by rw [he], hni, hpl⟩
        · exact Or.inr hall
    | brace =>
      simp only [fieldsGo] at h
      simp only [fmtGo]
      split_ifs at h ⊢ with h1 h2 h3
      · rcases ih FmtMode.text fs h with ⟨e, he, hni, hpl⟩ | hall
        · exact Or.inl ⟨e, by rw [he], hni, hpl⟩
        · exact Or.inr hall
      · exact Or.inl ⟨GenError.indexError, by rfl, by simp, fun _ => Or.inr rfl⟩
      · simpa only [fmtGo] using ih (FmtMode.skipMachinery []) fs h
      · exact ih (FmtMode.fieldName [ch]) fs h
    | closeBrace =>
      simp only [fieldsGo] at h
      simp only [fmtGo]
      split_ifs at h ⊢ with h1
      · rcases ih FmtMode.text fs h with ⟨e, he, hni, hpl⟩ | hall
        · exact Or.inl ⟨e, by rw [he], hni, hpl⟩
        · exact Or.inr hall
    | fieldName name =>
      simp only [fieldsGo] at h
      simp only [fmtGo]
      split_ifs at h ⊢ with h1 h2 h3
      · rcases Option.map_eq_some'.mp h with ⟨fs', hfs', rfl⟩
        by_cases hn1 : name = "context".toList
        · rcases ih FmtMode.text fs' hfs' with ⟨e, he, hni, hpl⟩ | hall
          · refine Or.inl ⟨e, by simp only [lookupField, if_pos hn1, he], hni, ?_⟩
            intro hp
            exact hpl fun p hp' => hp p (List.mem_cons_of_mem _ hp')
          · right
            intro p hp
            rcases List.mem_cons.mp hp with rfl | hp'
            · left
              rw [hn1]
              rfl
            · exact hall p hp'
        · by_cases hn2 : name = "question".toList
          · rcases ih FmtMode.text fs' hfs' with ⟨e, he, hni, hpl⟩ | hall
            · refine Or.inl ⟨e, by simp only [lookupField, if_neg hn1, if_pos hn2, he], hni, ?_⟩
              intro hp
              exact hpl fun p hp' => hp p (List.mem_cons_of_mem _ hp')
            · right
              intro p hp
              rcases List.mem_cons.mp hp with rfl | hp'
              · right
                rw [hn2]
                rfl
              · exact hall p hp'
          · left
            by_cases hd : name.all Char.isDigit
            · exact ⟨GenError.indexError,
                by simp only [lookupField, if_neg hn1, if_neg hn2, if_pos hd],
                by simp, fun _ => Or.inr rfl⟩
            · exact ⟨GenError.keyError (String.mk name),
                by simp only [lookupField, if_neg hn1, if_neg hn2, if_neg hd],
                by simp, fun _ => Or.inl ⟨_, rfl⟩⟩
      · simpa only [fmtGo] using ih (FmtMode.skipMachinery name) fs h
      · exact ih (FmtMode.fieldName (name ++ [ch])) fs h
    | skipMachinery name =>
      left
      have hmem : (String.mk name, false) ∈ fs := fieldsGo_skip_mem name (ch :: rest) fs h
      have hvac : (∀ p ∈ fs, p.2 = true) → False := fun hp => by simpa using hp _ hmem
      rcases hlk : lookupField c q name with e' | repl
      · obtain ⟨hni, _⟩ := lookupField_error_not_invalid c q name e' hlk
        exact ⟨e', by simp only [fmtGo, hlk], hni, fun hp => absurd hp (fun hp => hvac hp)⟩
      · exact ⟨GenError.fieldMachinery (String.mk name), by simp only [fmtGo, hlk],
          by simp, fun hp => absurd hp (fun hp => hvac hp)⟩

/-- C6 counterexample: rendering a template that references the foreign
placeholder foo raises an uncaught KeyError naming the field, which is not
the specification's InvalidInput error, refuting the claim that rendering
fails with InvalidInput. -/
theorem pyFormat_unknown_placeholder_keyError :
    pyFormat "{foo}" "ctx" "que" = Except.error (GenError.keyError "foo") ∧
    GenError.keyError "foo" ≠ GenError.invalidInput := by
  exact ⟨rfl, by decide⟩

/-- C6 (amended): prompt rendering is a pure function of the triple
(template, context, question) — equal inputs give equal results — and
whenever a template the scanner accepts references any placeholder
(argument name) other than context or question, rendering fails with an
uncaught Python error, never the spec's InvalidInput; when moreover every
replacement field of the template is plain (no conversion, format spec or
attribute/index machinery — the fragment on which the model is exactly
CPython), that error is precisely an uncaught KeyError or IndexError. -/
theorem pyFormat_pure_and_fails_on_foreign_placeholder
    (t c q c2 q2 f : String) (fs : List String)
    (hc : c = c2) (hq : q = q2)
    (hfs : templateFields t = some fs) (hf : f ∈ fs)
    (hf1 : f ≠ "context") (hf2 : f ≠ "question") :
    pyFormat t c q = pyFormat t c2 q2 ∧
    (∃ e, pyFormat t c q = Except.error e ∧ e ≠ GenError.invalidInput) ∧
    (templatePlain t = true →
      (∃ f2, pyFormat t c q = Except.error (GenError.keyError f2)) ∨
        pyFormat t c q = Except.error GenError.indexError) := by
  subst hc
  subst hq
  obtain ⟨fsP, hfsP, hmap⟩ := Option.map_eq_some'.mp hfs
  subst hmap
  rcases fieldsGo_some_fmtGo c q t.toList FmtMode.text fsP hfsP with ⟨e, he, hni, hpl⟩ | hall
  · refine ⟨rfl, ⟨e, by simp only [pyFormat, he], hni⟩, ?_⟩
    intro hplain
    have hall2 : ∀ p ∈ fsP, p.2 = true := by
      simp only [templatePlain, hfsP, List.all_eq_true] at hplain
      exact hplain
    rcases hpl hall2 with ⟨s, rfl⟩ | rfl
    · exact Or.inl ⟨s, by simp only [pyFormat, he]⟩
    · exact Or.inr (by simp only [pyFormat, he])
  · obtain ⟨p, hpmem, hpf⟩ := List.mem_map.mp hf
    rcases hall p hpmem with h | h
    · exact absurd (hpf ▸ h) hf1
    · exact absurd (hpf ▸ h) hf2

/-- C6 witness: the amended theorem applied at the template of the
counterexample, whose single field is the plain foreign name foo. -/
theorem pyFormat_pure_and_fails_on_foreign_placeholder_witness :
    pyFormat "{foo}" "ctx" "que" = pyFormat "{foo}" "ctx" "que" ∧
    (∃ e, pyFormat "{foo}" "ctx" "que" = Except.error e ∧ e ≠ GenError.invalidInput) ∧
    (templatePlain "{foo}" = true →
      (∃ f2, pyFormat "{foo}" "ctx" "que" = Except.error (GenError.keyError f2)) ∨
        pyFormat "{foo}" "ctx" "que" = Except.error GenError.indexError) :=
  pyFormat_pure_and_fails_on_foreign_placeholder "{foo}" "ctx" "que" "ctx" "que" "foo" ["foo"]
    rfl rfl (by decide) (by decide) (by decide) (by decide)

/-- C3 witness: the amended theorem applied at the example environment. -/
theorem generate_text_empty_messages_indexError_witness :
    (generate_text envEx 1 1 6 []).result = Except.error GenError.indexError ∧
    (generate_text envEx 1 1 6 []).retrievalCalls = [] ∧
    (generate_text envEx 1 1 6 []).generationCalls = [] ∧
    (generate_text envEx 1 1 6 []).messages = [] :=
  generate_text_empty_messages_indexError envEx 1 1 6 solutionEx promptEx rfl rfl

/-- C10: the default `messages` argument is one shared mutable list.  The
first defaulted call retrieves with the default question and overwrites the
last element of the shared default in place; a second defaulted call then
observes the first call's rendered prompt as its question, so the two
identical defaulted requests issue different retrieval queries whenever
rendering changes the content. -/
theorem generate_text_shared_default_messages_mutation
    (env : Env) (sid pid mid : Nat)
    (sol : SolutionObj) (pr : Prompt) (r : String)
    (hs : env.solutions sid = some sol)
    (hp : env.prompts pid = some pr)
    (hr : pyFormat pr.content
        (String.intercalate "\n"
          (List.map RetrievalItem.text
            (env.retrieve (retrievalRequestOf sol.knowledge "Where is the capital of Korea?"))))
        "Where is the capital of Korea?" = Except.ok r)
    (hne : r ≠ "Where is the capital of Korea?") :
    (generate_text_twice_defaulted env sid pid mid).1.retrievalCalls =
      [retrievalRequestOf sol.knowledge "Where is the capital of Korea?"] ∧
    (generate_text_twice_defaulted env sid pid mid).2.retrievalCalls =
      [retrievalRequestOf sol.knowledge r] ∧
    (generate_text_twice_defaulted env sid pid mid).2.retrievalCalls ≠
      (generate_text_twice_defaulted env sid pid mid).1.retrievalCalls := by
  have hl : default_messages.getLast? =
      some { role := "user", content := "Where is the capital of Korea?" } := rfl
  have h1 : (generate_text env sid pid mid default_messages).messages =
      [ { role := "assistant", content := "You are ahelpful assistant" }
      , { role := "user", content := r } ] := by
    simp only [generate_text, hs, hp, hl, hr]
    split <;> rfl
  have hA : (generate_text env sid pid mid default_messages).retrievalCalls =
      [retrievalRequestOf sol.knowledge "Where is the capital of Korea?"] := by
    simp only [generate_text, hs, hp, hl, hr]
    split <;> rfl
  have hl2 : ([ { role := "assistant", content := "You are ahelpful assistant" }
              , { role := "user", content := r } ] : List Message).getLast? =
      some { role := "user", content := r } := rfl
  have hB : (generate_text env sid pid mid
      [ { role := "assistant", content := "You are ahelpful assistant" }
      , { role := "user", content := r } ]).retrievalCalls =
      [retrievalRequestOf sol.knowledge r] := by
    simp only [generate_text, hs, hp, hl2]
    split
    · rfl
    · split <;> rfl
  have hfst : (generate_text_twice_defaulted env sid pid mid).1 =
      generate_text env sid pid mid default_messages := rfl
  have hsnd : (generate_text_twice_defaulted env sid pid mid).2 =
      generate_text env sid pid mid (generate_text env sid pid mid default_messages).messages := rfl
  refine ⟨by rw [hfst, hA], by rw [hsnd, h1, hB], ?_⟩
  rw [hfst, hsnd, h1, hA, hB]
  intro heq
  have hq : r = "Where is the capital of Korea?" :=
    congrArg RetrievalRequestSchema.query (List.cons.inj heq).1
  exact hne hq

/-- C10 witness: at the example environment the first defaulted call renders
the example prompt, so the two defaulted calls issue different retrieval
queries. -/
theorem generate_text_shared_default_messages_mutation_witness :
    (generate_text_twice_defaulted envEx 1 1 6).1.retrievalCalls =
      [retrievalRequestOf solutionEx.knowledge "Where is the capital of Korea?"] ∧
    (generate_text_twice_defaulted envEx 1 1 6).2.retrievalCalls =
      [retrievalRequestOf solutionEx.knowledge
        "Context: Seoul is the capital.\nKorea is in Asia.\nQ: Where is the capital of Korea?"] ∧
    (generate_text_twice_defaulted envEx 1 1 6).2.retrievalCalls ≠
      (generate_text_twice_defaulted envEx 1 1 6).1.retrievalCalls :=
  generate_text_shared_default_messages_mutation envEx 1 1 6 solutionEx promptEx
    "Context: Seoul is the capital.\nKorea is in Asia.\nQ: Where is the capital of Korea?"
    rfl rfl rfl (by decide)

/-- Finding a row in a list extended by one matching element, when no
earlier element matches, yields the appended element. -/
lemma find?_append_singleton {α : Type} (l : List α) (p : α → Bool) (a : α)
    (hl : ∀ x ∈ l, ¬ p x) (ha : p a) : (l ++ [a]).find? p = some a := by
  rw [List.find?_append, List.find?_eq_none.mpr hl, Option.none_or,
    List.find?_cons_of_pos _ ha]

/-- C8: creating a Solution creates exactly one associated SolutionConfig in
the same transaction — the config references the freshly created Solution's
identifier, the committed state after the single commit holds the new
Solution and exactly one config for it, and the endpoint returns the joined
read-model with the config populated and matching the submitted fields. -/
theorem create_solution_creates_config_same_transaction
    (db : DBState) (request : SolutionCreateSchema)
    (hs : ∀ s ∈ db.session.solutions, s.id ≠ db.nextSolutionId)
    (hc : ∀ cfg ∈ db.session.configs, cfg.solution_id ≠ db.nextSolutionId) :
    (create_solution db request).1 =
      some { solution := { id := db.nextSolutionId, fields := request.solution }
           , solution_config :=
               some { id := db.nextConfigId
                    , solution_id := db.nextSolutionId
                    , fields := request.solution_config } } ∧
    ((create_solution db request).2.committed.configs.filter
        (fun cfg => cfg.solution_id == db.nextSolutionId)).length = 1 ∧
    ({ id := db.nextSolutionId, fields := request.solution } : SolutionRow) ∈
      (create_solution db request).2.committed.solutions := by
  have hfindS : (db.session.solutions ++
      [({ id := db.nextSolutionId, fields := request.solution } : SolutionRow)]).find?
        (fun s => s.id == db.nextSolutionId) =
      some { id := db.nextSolutionId, fields := request.solution } := by
    refine find?_append_singleton _ _ _ ?_ (by simp)
    intro x hx
    simpa using hs x hx
  have hfindC : (db.session.configs ++
      [({ id := db.nextConfigId, solution_id := db.nextSolutionId
        , fields := request.solution_config } : SolutionConfigRow)]).find?
        (fun cfg => cfg.solution_id == db.nextSolutionId) =
      some { id := db.nextConfigId, solution_id := db.nextSolutionId
           , fields := request.solution_config } := by
    refine find?_append_singleton _ _ _ ?_ (by simp)
    intro x hx
    simpa using hc x hx
  have hfilterC : ((db.session.configs ++
      [({ id := db.nextConfigId, solution_id := db.nextSolutionId
        , fields := request.solution_config } : SolutionConfigRow)]).filter
        (fun cfg => cfg.solution_id == db.nextSolutionId)).length = 1 := by
    rw [List.filter_append]
    have h0 : db.session.configs.filter (fun cfg => cfg.solution_id == db.nextSolutionId) = [] := by
      rw [List.filter_eq_nil_iff]
      intro x hx
      simpa using hc x hx
    rw [h0]
    simp
  refine ⟨?_, ?_, ?_⟩
  · simp only [create_solution, solutionServiceCreate, solutionConfigServiceCreate,
      solutionServiceGet, dbCommit]
    rw [hfindS]
    simp only [Option.map_some']
    rw [hfindC]
  · simp only [create_solution, solutionServiceCreate, solutionConfigServiceCreate,
      solutionServiceGet, dbCommit]
    exact hfilterC
  · simp only [create_solution, solutionServiceCreate, solutionConfigServiceCreate,
      solutionServiceGet, dbCommit]
    exact List.mem_append_right _ (List.mem_singleton.mpr rfl)

/-- C8 witness: creating a solution in the empty database. -/
theorem create_solution_creates_config_same_transaction_witness :
    (create_solution { committed := { solutions := [], configs := [] }
                     , session := { solutions := [], configs := [] }
                     , nextSolutionId := 1, nextConfigId := 1 }
        { solution := { name := "s", description := "d", knowledge_id := 1, prompt_id := 1 }
        , solution_config := { model_id := 6 } }).1 =
      some { solution := { id := 1
                         , fields := { name := "s", description := "d"
                                     , knowledge_id := 1, prompt_id := 1 } }
           , solution_config :=
               some { id := 1, solution_id := 1, fields := { model_id := 6 } } } ∧
    ((create_solution { committed := { solutions := [], configs := [] }
                      , session := { solutions := [], configs := [] }
                      , nextSolutionId := 1, nextConfigId := 1 }
        { solution := { name := "s", description := "d", knowledge_id := 1, prompt_id := 1 }
        , solution_config := { model_id := 6 } }).2.committed.configs.filter
        (fun cfg => cfg.solution_id == 1)).length = 1 ∧
    ({ id := 1
     , fields := { name := "s", description := "d", knowledge_id := 1, prompt_id := 1 } } : SolutionRow) ∈
      (create_solution { committed := { solutions := [], configs := [] }
                       , session := { solutions := [], configs := [] }
                       , nextSolutionId := 1, nextConfigId := 1 }
          { solution := { name := "s", description := "d", knowledge_id := 1, prompt_id := 1 }
          , solution_config := { model_id := 6 } }).2.committed.solutions :=
  create_solution_creates_config_same_transaction
    { committed := { solutions := [], configs := [] }
    , session := { solutions := [], configs := [] }
    , nextSolutionId := 1, nextConfigId := 1 }
    { solution := { name := "s", description := "d", knowledge_id := 1, prompt_id := 1 }
    , solution_config := { model_id := 6 } }
    (by simp) (by simp)
